import Mathlib

/-!
Verification of the Voltcast load-forecasting orchestration core.

Shallow embedding of the repository's prediction services:
  * `src/api/services/iterative_predictor.py` (heat_index_safe, build_feature_row,
    predict_future_iterative)
  * `src/api/services/hybrid_predictor.py` (predict_24h_from_csv)
  * `src/api/services/predictor.py` (HybridPredictor.predict_horizon tail computation)
  * `src/api/services/feature_builder.py` (build_from_db_history, _pad_history,
    the heat-index line of _compute_features_from_history)
  * `src/api/routes/predictions.py` (confidence-interval construction)
  * the day-block cache (get_hourly_predictions / store_hourly_predictions), which is
    called by the routes but whose definition is absent from src/, is modelled from
    the specification (section 4.6).

Modelling conventions:
  * Python floats are modelled as exact rationals (`Rat`); decimal literals in the
    source become the same decimal literals over `Rat`.  The one transcendental
    formula (the feature builder's exponential heat index) is modelled over `Real`.
  * `datetime` timestamps are modelled as an integer count of hours; adding
    `timedelta(hours=1)` is `+ 1`.  `hour` is the count modulo 24 and `weekday` is
    the day count modulo 7 (epoch placed at a Monday midnight, matching Python's
    Monday = 0 convention).  Calendar month and the external `holidays` table are
    genuine calendar lookups and are abstracted as a `Calendar` context.
  * The trained models (LightGBM, the Transformer) and the residual scaler are
    opaque external artifacts; they are parameters (`Models`).
-/

namespace Voltcast

/-- Observation row of the working-history dataframe (columns `timestamp`, `load`,
and the optional weather columns added by `predict_future_iterative`'s `new_row`).
A missing dataframe column is `none`; `row.get(col, default)` is `Option.getD`. -/
structure Obs where
  timestamp : ℤ
  load : ℚ
  temperature_2m : Option ℚ
  relativehumidity_2m : Option ℚ
  wind_speed_10m : Option ℚ
  shortwave_radiation : Option ℚ
  precipitation : Option ℚ
deriving Repr, DecidableEq

/-- Weather dict passed to `build_feature_row`; each key may be absent, and
`weather.get(key, default)` is `Option.getD`. -/
structure Weather where
  temperature : Option ℚ
  humidity : Option ℚ
  apparent_temperature : Option ℚ
  solar_radiation : Option ℚ
  precipitation : Option ℚ
  wind_speed : Option ℚ
deriving Repr, DecidableEq

/-- The empty dict `{}` used when `hour_idx >= len(weather_forecasts)`. -/
def emptyWeather : Weather := ⟨none, none, none, none, none, none⟩

/-- External calendar facts that the code obtains from `datetime`/`holidays` and
that are not hour arithmetic: the India holiday table and the calendar month. -/
structure Calendar where
  isHoliday : ℤ → Bool
  monthOf : ℤ → ℤ

/-- Python source, `iterative_predictor.heat_index_safe`: NOAA heat index with the
`np.where(T < 80, simple, HI)` branch; input in Celsius, output in Celsius. -/
def heat_index_safe (temp_c rh : ℚ) : ℚ :=
  let T := temp_c * 9 / 5 + 32
  let HI := -42.379 + 2.04901523 * T + 10.14333127 * rh - 0.22475541 * T * rh
      - 0.00683783 * T * T - 0.05481717 * rh * rh + 0.00122874 * T * T * rh
      + 0.00085282 * T * rh * rh - 0.00000199 * T * T * rh * rh
  let simple := 0.5 * (T + 61 + (T - 68) * 1.2 + rh * 0.094)
  let sel := if T < 80 then simple else HI
  (sel - 32) * 5 / 9

/-- Insertion step for `sortByTime` (stable sort on the `timestamp` column). -/
def insertByTime (o : Obs) : List Obs → List Obs
  | [] => [o]
  | x :: xs => if o.timestamp ≤ x.timestamp then o :: x :: xs else x :: insertByTime o xs

/-- Embedding of `history_df.sort_values('timestamp')`. -/
def sortByTime : List Obs → List Obs
  | [] => []
  | x :: xs => insertByTime x (sortByTime xs)

/-- Embedding of `series.iloc[-1]` on the `load` column (the source raises on an
empty frame; that case is unreachable from the call sites, which always pass a
non-empty history, and is given the value 0 here). -/
def lastLoad (l : List Obs) : ℚ := (l.map (fun o => o.load)).getLastD 0

/-- Embedding of `series.mean()` over the `load` column. -/
def loadMean (l : List Obs) : ℚ := (l.map (fun o => o.load)).sum / l.length

/-- The feature dict built by `iterative_predictor.build_feature_row` (all keys the
source inserts, in source order). -/
structure FeatureRow where
  is_holiday : ℚ
  dow : ℚ
  hour : ℚ
  is_weekend : ℚ
  month : ℚ
  hour_of_week : ℚ
  temperature_2m : ℚ
  relativehumidity_2m : ℚ
  apparent_temperature : ℚ
  shortwave_radiation : ℚ
  precipitation : ℚ
  wind_speed_10m : ℚ
  heat_index : ℚ
  lag_1 : ℚ
  lag_24 : ℚ
  lag_168 : ℚ
  roll24 : ℚ
  roll168 : ℚ
deriving Repr, DecidableEq

/-- Embedding of the feature-dict population in `build_feature_row` (everything up
to the final `np.array` line). -/
def build_features (cal : Calendar) (timestamp : ℤ) (history_df : List Obs)
    (weather : Weather) : FeatureRow :=
  let dow : ℤ := (timestamp.ediv 24).emod 7
  let hour : ℤ := timestamp.emod 24
  let is_holiday : ℚ := if cal.isHoliday timestamp then 1 else 0
  let is_weekend : ℚ := if 5 ≤ dow then 1 else 0
  let temperature : ℚ := weather.temperature.getD 25
  let humidity : ℚ := weather.humidity.getD 60
  let apparent : ℚ := weather.apparent_temperature.getD temperature
  let solar : ℚ := weather.solar_radiation.getD 50
  let precip : ℚ := weather.precipitation.getD 0
  let wind : ℚ := weather.wind_speed.getD 3.5
  let heat_index : ℚ := heat_index_safe temperature humidity
  let hist_sorted := sortByTime history_df
  let lag_1 : ℚ :=
    match hist_sorted.filter (fun o => o.timestamp == timestamp - 1) with
    | o :: _ => o.load
    | [] => lastLoad hist_sorted
  let lag_24 : ℚ :=
    match hist_sorted.filter (fun o => o.timestamp == timestamp - 24) with
    | o :: _ => o.load
    | [] => lag_1
  let lag_168 : ℚ :=
    match hist_sorted.filter (fun o => o.timestamp == timestamp - 168) with
    | o :: _ => o.load
    | [] => lag_24
  let last_24h := hist_sorted.filter (fun o => timestamp - 24 < o.timestamp)
  let roll24 : ℚ := if 0 < last_24h.length then loadMean last_24h else lag_1
  let last_168h := hist_sorted.filter (fun o => timestamp - 168 < o.timestamp)
  let roll168 : ℚ := if 0 < last_168h.length then loadMean last_168h else roll24
  ⟨is_holiday, (dow : ℚ), (hour : ℚ), is_weekend, (cal.monthOf timestamp : ℚ),
    (dow * 24 + hour : ℤ), temperature, humidity, apparent, solar, precip, wind,
    heat_index, lag_1, lag_24, lag_168, roll24, roll168⟩

/-- Dict lookup `features.get(feat, 0.0)` used by the final vector-assembly line. -/
def feat_get (f : FeatureRow) : String → ℚ
  | "is_holiday" => f.is_holiday
  | "dow" => f.dow
  | "hour" => f.hour
  | "is_weekend" => f.is_weekend
  | "month" => f.month
  | "hour_of_week" => f.hour_of_week
  | "temperature_2m" => f.temperature_2m
  | "relativehumidity_2m" => f.relativehumidity_2m
  | "apparent_temperature" => f.apparent_temperature
  | "shortwave_radiation" => f.shortwave_radiation
  | "precipitation" => f.precipitation
  | "wind_speed_10m" => f.wind_speed_10m
  | "heat_index" => f.heat_index
  | "lag_1" => f.lag_1
  | "lag_24" => f.lag_24
  | "lag_168" => f.lag_168
  | "roll24" => f.roll24
  | "roll168" => f.roll168
  | _ => 0

/-- Python source, `iterative_predictor.build_feature_row`: the returned vector
`np.array([features.get(feat, 0.0) for feat in feature_order])`. -/
def build_feature_row (cal : Calendar) (timestamp : ℤ) (history_df : List Obs)
    (weather : Weather) (feature_order : List String) : List ℚ :=
  feature_order.map (feat_get (build_features cal timestamp history_df weather))

/-- Elementwise view of the residual scaler: `transform` is
`residual_scaler.transform` applied to a single value (the source applies it to a
column and the result elementwise), `inverse` is `inverse_transform` likewise. -/
structure ScalerFns where
  transform : ℚ → ℚ
  inverse : ℚ → ℚ

/-- Opaque external model artifacts handed to `predict_future_iterative`:
`lgbm_model.predict` on one feature row, the optional `transformer_model` applied
to a scaled 168-residual window, and the optional `residual_scaler`. -/
structure Models where
  lgbm : List ℚ → ℚ
  transformer : Option (List ℚ → ℚ)
  residualScaler : Option ScalerFns

/-- Weather dict rebuilt from a history row in `predict_future_iterative`'s
initial-residual loop (`weather_hist = {'temperature': row.get(...), ...}`; it has
no `apparent_temperature` key). -/
def weatherOfObs (o : Obs) : Weather :=
  ⟨some (o.temperature_2m.getD 25), some (o.relativehumidity_2m.getD 60), none,
    some (o.shortwave_radiation.getD 50), some (o.precipitation.getD 0),
    some (o.wind_speed_10m.getD 3.5)⟩

/-- Placeholder row for a list access that the caller guarantees in range. -/
def defaultObs : Obs := ⟨0, 0, none, none, none, none, none⟩

/-- Embedding of the initial residual-sequence computation in
`predict_future_iterative` (the body of the `if transformer_model is not None and
residual_scaler is not None` block): LGBM baselines over the last 168 history
rows, residuals against the recorded loads, scaled and truncated to the last 168;
`np.zeros(168)` when the history is empty. -/
def init_residual_seq (cal : Calendar) (mods : Models) (feature_order : List String)
    (working_history : List Obs) (sc : ScalerFns) : List ℚ :=
  let n := working_history.length
  let hist_features : List (List ℚ) :=
    ((List.range n).drop (n - 168)).map (fun idx =>
      let row := (working_history.take (idx + 1)).getLastD defaultObs
      build_feature_row cal row.timestamp (working_history.take (idx + 1))
        (weatherOfObs row) feature_order)
  if hist_features.isEmpty then List.replicate 168 0
  else
    let hist_baselines := hist_features.map mods.lgbm
    let hist_actuals :=
      (working_history.map (fun o => o.load)).drop (n - hist_baselines.length)
    let hist_residuals := List.zipWith (fun a b => a - b) hist_actuals hist_baselines
    let residual_sequence := hist_residuals.map sc.transform
    residual_sequence.drop (residual_sequence.length - 168)

/-- Mutable state threaded through the prediction loop of
`predict_future_iterative`: the working history, the residual sequence (`none`
when the transformer or scaler is absent), and `current_ts`. -/
structure IterState where
  history : List Obs
  resSeq : Option (List ℚ)
  ts : ℤ
deriving DecidableEq

/-- Per-hour outputs appended by the loop body. -/
structure HourOut where
  ts : ℤ
  prediction : ℚ
  baseline : ℚ
  residual : ℚ
deriving Repr, DecidableEq

/-- Embedding of one iteration of the `for hour_idx in range(horizon)` loop body
of `predict_future_iterative`: build features, LGBM baseline, transformer residual
when the scaled sequence holds at least 168 entries (dropping the oldest and
appending the new scaled residual), floor the hybrid at zero, append the
prediction row to the working history, and advance one hour.  The `none` arm of
the inner scaler match is unreachable from `predict_future_iterative`, which only
builds a residual sequence when the scaler is present. -/
def iter_step (cal : Calendar) (mods : Models) (feature_order : List String)
    (weather : Weather) (s : IterState) : HourOut × IterState :=
  let feature_vector := build_feature_row cal s.ts s.history weather feature_order
  let baseline := mods.lgbm feature_vector
  let step_res : ℚ × Option (List ℚ) :=
    match mods.transformer, s.resSeq with
    | some tm, some seq =>
      if 168 ≤ seq.length then
        let residual_scaled := tm (seq.drop (seq.length - 168))
        let residual :=
          match mods.residualScaler with
          | some sc => sc.inverse residual_scaled
          | none => residual_scaled
        (residual, some (seq.drop 1 ++ [residual_scaled]))
      else (0, some seq)
    | _, _ => (0, s.resSeq)
  let residual := step_res.1
  let prediction := max 0 (baseline + residual)
  let new_row : Obs := ⟨s.ts, prediction,
    some (weather.temperature.getD 25), some (weather.humidity.getD 60),
    some (weather.wind_speed.getD 3.5), some (weather.solar_radiation.getD 50),
    some (weather.precipitation.getD 0)⟩
  (⟨s.ts, prediction, baseline, residual⟩,
    ⟨s.history ++ [new_row], step_res.2, s.ts + 1⟩)

/-- Embedding of the full `for hour_idx in range(horizon)` loop: the remaining
iteration count, the current `hour_idx` (used to index `weather_forecasts`, out of
range giving the empty dict), and the state. -/
def iter_loop (cal : Calendar) (mods : Models) (feature_order : List String)
    (weather_forecasts : List Weather) :
    ℕ → ℕ → IterState → List HourOut × IterState
  | 0, _, s => ([], s)
  | Nat.succ n, hour_idx, s =>
    let weather := weather_forecasts.getD hour_idx emptyWeather
    let out := iter_step cal mods feature_order weather s
    let rest := iter_loop cal mods feature_order weather_forecasts n (hour_idx + 1) out.2
    (out.1 :: rest.1, rest.2)

/-- Result dict of `predict_future_iterative`. -/
structure IterResult where
  start_timestamp : ℤ
  timestamps : List ℤ
  predictions : List ℚ
  baselines : List ℚ
  residuals : List ℚ
deriving Repr, DecidableEq

/-- Python source, `iterative_predictor.predict_future_iterative`: set up the
residual sequence when both the transformer and the scaler are available, run the
hour-by-hour loop from `start_timestamp`, and assemble the result lists. -/
def predict_future_iterative (cal : Calendar) (mods : Models)
    (feature_order : List String) (start_timestamp : ℤ) (horizon : ℕ)
    (history_df : List Obs) (weather_forecasts : List Weather) : IterResult :=
  let residual_sequence : Option (List ℚ) :=
    match mods.transformer, mods.residualScaler with
    | some _, some sc => some (init_residual_seq cal mods feature_order history_df sc)
    | _, _ => none
  let run := iter_loop cal mods feature_order weather_forecasts horizon 0
    ⟨history_df, residual_sequence, start_timestamp⟩
  ⟨start_timestamp, run.1.map (fun o => o.ts), run.1.map (fun o => o.prediction),
    run.1.map (fun o => o.baseline), run.1.map (fun o => o.residual)⟩

/-- Row of the CSV master dataframe used by `predict_24h_from_csv`: the
`timestamp` and `load` columns plus the precomputed feature columns, read by name
by `_build_feature_vector` (a missing column is `none` and becomes 0.0). -/
structure CsvRow where
  timestamp : ℤ
  load : ℚ
  cols : String → Option ℚ

/-- Embedding of `HybridPredictor._build_feature_vector`: one value per name of
`feature_order`, read from the row or 0.0 when the column is absent. -/
def build_feature_vector (row : CsvRow) (feature_order : List String) : List ℚ :=
  feature_order.map (fun feat => (row.cols feat).getD 0)

/-- Insertion step for `sortCsvByTime`. -/
def insertCsvByTime (o : CsvRow) : List CsvRow → List CsvRow
  | [] => [o]
  | x :: xs =>
    if o.timestamp ≤ x.timestamp then o :: x :: xs else x :: insertCsvByTime o xs

/-- Embedding of `df.sort_values('timestamp')` on the CSV dataframe. -/
def sortCsvByTime : List CsvRow → List CsvRow
  | [] => []
  | x :: xs => insertCsvByTime x (sortCsvByTime xs)

/-- Embedding of `HybridPredictor._compute_residuals_from_data` on the index range
`[start_idx, end_idx)`: per-row feature vectors, LGBM baselines, residuals against
the `load` column, scaled when the residual scaler is present. -/
def compute_residuals_from_data (mods : Models) (feature_order : List String)
    (df : List CsvRow) (start_idx end_idx : ℕ) : List ℚ :=
  let rows := (df.drop start_idx).take (end_idx - start_idx)
  let lgbm_preds := rows.map (fun r => mods.lgbm (build_feature_vector r feature_order))
  let actuals := rows.map (fun r => r.load)
  let residuals := List.zipWith (fun a b => a - b) actuals lgbm_preds
  match mods.residualScaler with
  | some sc => residuals.map sc.transform
  | none => residuals

/-- Per-hour loop state and outputs of the 24-hour loop of
`predict_24h_from_csv`: the current residual sequence plus the accumulated
prediction/baseline/residual/actual/timestamp lists in order. -/
structure Csv24Out where
  timestamps : List ℤ
  predictions : List ℚ
  baselines : List ℚ
  residuals : List ℚ
  actuals : List ℚ
deriving Repr

/-- Embedding of the `for h in range(24)` loop of `predict_24h_from_csv`, driven
by the list of the 24 rows at `start_idx ... start_idx+23`.  Each hour: LGBM
baseline from the row's recorded features; when the transformer is present and the
residual window holds at least `seq_len = 168` entries, a transformer residual
(unscaled when a scaler is present) with the window shifted by one; otherwise a
0.0 residual; the hybrid is floored at zero and the row's `load` is the actual. -/
def csv24_loop (mods : Models) (feature_order : List String) :
    List CsvRow → List ℚ → Csv24Out
  | [], _ => ⟨[], [], [], [], []⟩
  | row :: rows, current_residuals =>
    let baseline := mods.lgbm (build_feature_vector row feature_order)
    let step : ℚ × List ℚ :=
      match mods.transformer with
      | some tm =>
        if 168 ≤ current_residuals.length then
          let residual_seq := current_residuals.drop (current_residuals.length - 168)
          let residual_scaled := tm residual_seq
          let residual :=
            match mods.residualScaler with
            | some sc => sc.inverse residual_scaled
            | none => residual_scaled
          (residual, current_residuals.drop 1 ++ [residual_scaled])
        else (0, current_residuals)
      | none => (0, current_residuals)
    let hybrid := baseline + step.1
    let rest := csv24_loop mods feature_order rows step.2
    ⟨row.timestamp :: rest.timestamps, max 0 hybrid :: rest.predictions,
      baseline :: rest.baselines, step.1 :: rest.residuals,
      row.load :: rest.actuals⟩

/-- Result dict of `predict_24h_from_csv` (the optional `metrics` entry, an
aggregate report over these same lists, is not modelled). -/
structure Csv24Result where
  start_timestamp : ℤ
  timestamps : List ℤ
  predictions : List ℚ
  baselines : List ℚ
  residuals : List ℚ
  actuals : List ℚ
deriving Repr

/-- Python source, `hybrid_predictor.HybridPredictor.predict_24h_from_csv` with
`seq_len = 168`: sort the CSV rows, locate `start_timestamp`, validate 168 hours
of history before it and 24 hours of data after it (each `raise ValueError`
becomes `Except.error`), compute the historical scaled residuals, and run the
24-hour prediction loop. -/
def predict_24h_from_csv (mods : Models) (feature_order : List String)
    (df_raw : List CsvRow) (start_timestamp : ℤ) : Except String Csv24Result :=
  let df := sortCsvByTime df_raw
  match df.findIdx? (fun r => r.timestamp == start_timestamp) with
  | none => Except.error "Timestamp not found"
  | some start_idx =>
    if start_idx < 168 then Except.error "Insufficient history"
    else if df.length < start_idx + 24 then Except.error "Insufficient data"
    else
      let historical_residuals :=
        compute_residuals_from_data mods feature_order df (start_idx - 168) start_idx
      let out := csv24_loop mods feature_order ((df.drop start_idx).take 24)
        historical_residuals
      Except.ok ⟨start_timestamp, out.timestamps, out.predictions, out.baselines,
        out.residuals, out.actuals⟩

/-- Confidence-interval entry `{'lower': ..., 'upper': ..., 'margin': ...}`. -/
structure CI where
  lower : ℚ
  upper : ℚ
  margin : ℚ
deriving Repr, DecidableEq

/-- Python source, `routes/predictions.py` `predict_horizon`: the
`confidence_intervals` list comprehension used by both the iterative-forecast and
the CSV branch, `{'lower': max(0, p - 175), 'upper': p + 175, 'margin': 175}` for
each returned prediction. -/
def route_confidence_intervals (predictions : List ℚ) : List CI :=
  predictions.map (fun p => ⟨max 0 (p - 175), p + 175, 175⟩)

/-- Result of `predictor.HybridPredictor.predict_horizon` (the fields the claims
touch). -/
structure HorizonResult where
  horizon : ℕ
  predictions : List ℚ
  confidence_intervals : List CI
  baselines : List ℚ
  residuals : List ℚ
deriving Repr

/-- Python source, `predictor.HybridPredictor.predict_horizon`, final assembly on
a cache miss.  The per-hour baseline (`xgb_model.predict` over features rebuilt
from the evolving DB-backed history) and per-hour residual (transformer output, or
0.0 when the model is absent or its call raises) are opaque compositions of
external artifacts and are abstracted as functions of the hour index; the
claim-relevant tail is verbatim: `hybrid_values = [max(0.0, baseline_values[i] +
residuals[i]) for i in range(horizon)]`, one shared margin `ci_margin = 1.96 *
residual_std` and per-prediction bounds `max(0.0, pred - ci_margin)` /
`pred + ci_margin`. -/
def predict_horizon_outputs (horizon : ℕ) (baselineAt residualAt : ℕ → ℚ)
    (residual_std : ℚ) : HorizonResult :=
  let baseline_values := (List.range horizon).map baselineAt
  let residuals := (List.range horizon).map residualAt
  let hybrid_values :=
    (List.range horizon).map (fun i => max 0 (baselineAt i + residualAt i))
  let ci_margin := 1.96 * residual_std
  let confidence_intervals :=
    hybrid_values.map (fun pred => ⟨max 0 (pred - ci_margin), pred + ci_margin, ci_margin⟩)
  ⟨horizon, hybrid_values, confidence_intervals, baseline_values, residuals⟩

/-- Modelled from the spec: the DayBlockCache value store (section 4.6).  The
routes call `cache.get_hourly_predictions(date)` and
`cache.store_hourly_predictions(date, predictions)`, but those methods are not
defined on the `CacheService` in `src/api/services/cache.py` or anywhere else
under src/; the cache is therefore modelled from the spec's words: a map from
calendar date to an optional block of exactly 24 ordered predictions. -/
def DayBlockCache : Type := ℤ → Option (List ℚ)

/-- Modelled from the spec: `get(date) → Optional[24 floats]` (section 4.6). -/
def dayBlockGet (c : DayBlockCache) (d : ℤ) : Option (List ℚ) := c d

/-- Modelled from the spec: `put(date, 24 floats)` — an idempotent overwrite;
"attempts to cache blocks of length ≠ 24 are rejected outright", leaving the
cache unchanged (sections 4.6 and 8). -/
def dayBlockPut (c : DayBlockCache) (d : ℤ) (block : List ℚ) : DayBlockCache :=
  if block.length = 24 then fun x => if x = d then some block else c x else c

/-- The cache holding no day blocks. -/
def emptyDayBlockCache : DayBlockCache := fun _ => none

/-- Row of the DB-history dataframe returned by
`storage_service.get_last_n_hours` (`ts`, `demand`, `temperature` columns). -/
structure DbRow where
  ts : ℤ
  demand : ℚ
  temperature : Option ℚ
deriving Repr, DecidableEq

/-- Python source, `feature_builder.FeatureBuilder._pad_history`: repeat the last
row until `target_len`, with timestamps continuing at one-hour steps (the source
indexes `iloc[-1]` and so raises on an empty frame; callers only reach this with
at least 24 rows, and the empty case is returned unchanged here). -/
def pad_history (history_df : List DbRow) (target_len : ℕ) : List DbRow :=
  if target_len ≤ history_df.length then history_df
  else
    match history_df.getLast? with
    | none => history_df
    | some last =>
      history_df ++ (List.range (target_len - history_df.length)).map
        (fun i => ⟨last.ts + (i : ℤ) + 1, last.demand, last.temperature⟩)

/-- Outcome of the `storage_service.get_last_n_hours` call inside
`build_from_db_history`: the service may be absent, the fetch may raise (the
enclosing `try` turns any exception into the error fallback), or it returns the
history rows. -/
inductive StorageOutcome where
  | noService : StorageOutcome
  | fetchFailed : StorageOutcome
  | fetched : List DbRow → StorageOutcome

/-- Metadata dict returned by `build_from_db_history`. -/
structure BuildMeta where
  data_source : String
  history_length : ℕ
deriving Repr, DecidableEq

/-- The two feature payload builders that `build_from_db_history` dispatches
between.  Their bodies (`build_for_inference`, and `_compute_features_from_history`
followed by `build_vector`/`build_sequence`) compute the larger cyclical/FFT
feature-set variant, whose values are opaque to the dispatch being verified; they
are abstracted as functions into an arbitrary payload type. -/
structure FeaturePipes (α : Type) where
  buildForInference : ℤ → Weather → α
  computeFromHistory : ℤ → List DbRow → Weather → α

/-- Python source, `feature_builder.FeatureBuilder.build_from_db_history` with
`seq_len = 168`: no storage service gives the fallback vector with the initial
`'unknown'` metadata; a raised fetch gives the fallback vector marked
`'error_fallback'`; fewer than 24 rows of history gives the fallback vector
marked `'fallback'`; otherwise the history is padded to 168 rows when shorter and
features are computed from it, marked `'database'`.  No branch raises. -/
def build_from_db_history {α : Type} (fb : FeaturePipes α) (storage : StorageOutcome)
    (timestamp : ℤ) (weather_forecast : Weather) : α × BuildMeta :=
  match storage with
  | StorageOutcome.noService =>
    (fb.buildForInference timestamp weather_forecast, ⟨"unknown", 0⟩)
  | StorageOutcome.fetchFailed =>
    (fb.buildForInference timestamp weather_forecast, ⟨"error_fallback", 0⟩)
  | StorageOutcome.fetched history_df =>
    if history_df.length < 24 then
      (fb.buildForInference timestamp weather_forecast,
        ⟨"fallback", history_df.length⟩)
    else
      let padded :=
        if history_df.length < 168 then pad_history history_df 168 else history_df
      (fb.computeFromHistory timestamp padded weather_forecast,
        ⟨"database", history_df.length⟩)

/-- Python source, the `heat_index` line of
`feature_builder.FeatureBuilder._compute_features_from_history` (and of
`build_from_raw`): a single continuous vapour-pressure formula,
`temp + 0.5555 * (humidity / 100.0 * 6.11 * exp(5417.7530 * (1/273.16 -
1/(273.15 + temp))) - 10)`. -/
noncomputable def fb_heat_index (temp humidity : ℝ) : ℝ :=
  temp + 0.5555 * (humidity / 100.0 * 6.11 *
    Real.exp (5417.7530 * (1 / 273.16 - 1 / (273.15 + temp))) - 10)

/-- Concrete feature pipes for the C4 counterexample: payloads that distinguish
the fallback builder from the history builder. -/
def fbPipesC : FeaturePipes (List ℚ) :=
  ⟨fun _ _ => [0], fun _ _ _ => [1]⟩

/-- Ten hourly rows of DB history at 100 MW — strictly shorter than 24 hours. -/
def rowsTen : List DbRow := (List.range 10).map (fun i : ℕ => ⟨(i : ℤ), 100, none⟩)

/-- Thirty hourly rows of DB history at 100 MW — between the 24-hour floor and
the 168-hour window. -/
def rowsThirty : List DbRow := (List.range 30).map (fun i : ℕ => ⟨(i : ℤ), 100, none⟩)

/-- Concrete calendar for witnesses and counterexamples: no holidays, January. -/
def calC : Calendar := ⟨fun _ => false, fun _ => 1⟩

/-- The feature names inserted by `build_feature_row`, in source order. -/
def featureOrderC : List String :=
  ["is_holiday", "dow", "hour", "is_weekend", "month", "hour_of_week",
    "temperature_2m", "relativehumidity_2m", "apparent_temperature",
    "shortwave_radiation", "precipitation", "wind_speed_10m", "heat_index",
    "lag_1", "lag_24", "lag_168", "roll24", "roll168"]

/-- History holding entries at exactly the 1-, 24- and 168-hour offsets before
hour 0, all at 100 MW: every lag is read exactly, nothing is substituted. -/
def histExact : List Obs :=
  [⟨-168, 100, none, none, none, none, none⟩,
    ⟨-24, 100, none, none, none, none, none⟩,
    ⟨-1, 100, none, none, none, none, none⟩]

/-- History holding only the 1-hour offset: the 24- and 168-hour lags must be
substituted. -/
def histShort : List Obs := [⟨-1, 100, none, none, none, none, none⟩]

/-- Concrete model artifacts with no transformer and no scaler, and a baseline
that always predicts -5 MW (so the zero floor is exercised). -/
def modsPlain : Models := ⟨fun _ => -5, none, none⟩

/-- Concrete model artifacts with a transformer and an identity scaler. -/
def modsFull : Models := ⟨fun _ => 0, some (fun _ => 5), some ⟨fun x => x, fun x => x⟩⟩

/-- A 192-row sorted CSV frame with hourly timestamps 0..191, all loads zero and
no feature columns: the smallest shape on which `predict_24h_from_csv` succeeds
(168 rows of history before row 168, 24 rows after it). -/
def dfW : List CsvRow := (List.range 192).map (fun i : ℕ => ⟨(i : ℤ), 0, fun _ => none⟩)

/-- C2: for every date `d` and every block whose length is not 24, the day-block
cache put rejects the write and leaves the cached value for `d` unchanged: a get
after the rejected put returns exactly what it returned before. -/
theorem dayBlockPut_rejects_bad_length (c : DayBlockCache) (d : ℤ) (block : List ℚ)
    (h : block.length ≠ 24) :
    dayBlockGet (dayBlockPut c d block) d = dayBlockGet c d := by
  simp [dayBlockGet, dayBlockPut, if_neg h]

/-- Witness for C2 at a concrete cache, date and length-3 block. -/
theorem dayBlockPut_rejects_bad_length_witness :
    ([(1 : ℚ), 2, 3].length ≠ 24) ∧
      dayBlockGet (dayBlockPut emptyDayBlockCache 0 [1, 2, 3]) 0
        = dayBlockGet emptyDayBlockCache 0 :=
  ⟨by decide, dayBlockPut_rejects_bad_length emptyDayBlockCache 0 [1, 2, 3] (by decide)⟩

/-- C3: storing a block of exactly 24 predictions under a date and reading the
date back returns exactly that block, and a repeated put of the same block is an
idempotent overwrite. -/
theorem dayBlockCache_roundtrip_idempotent (c : DayBlockCache) (d : ℤ)
    (block : List ℚ) (h : block.length = 24) :
    dayBlockGet (dayBlockPut c d block) d = some block ∧
      dayBlockPut (dayBlockPut c d block) d block = dayBlockPut c d block := by
  constructor
  · simp [dayBlockGet, dayBlockPut, if_pos h]
  · funext x
    simp only [dayBlockPut, if_pos h]
    split <;> rfl

/-- Witness for C3 at a concrete cache, date and 24-zero block. -/
theorem dayBlockCache_roundtrip_idempotent_witness :
    ((List.replicate 24 (0 : ℚ)).length = 24) ∧
      (dayBlockGet (dayBlockPut emptyDayBlockCache 5 (List.replicate 24 0)) 5
          = some (List.replicate 24 0) ∧
        dayBlockPut (dayBlockPut emptyDayBlockCache 5 (List.replicate 24 0)) 5
            (List.replicate 24 0)
          = dayBlockPut emptyDayBlockCache 5 (List.replicate 24 0)) :=
  ⟨by decide,
    dayBlockCache_roundtrip_idempotent emptyDayBlockCache 5 (List.replicate 24 0)
      (by decide)⟩

/-- C6 (amended): `heat_index_safe` is the two-branch formula exactly as the claim
describes it — strictly below `T = 80` degrees Fahrenheit the simple linear
approximation `0.5*(T + 61 + (T-68)*1.2 + rh*0.094)` is returned, and at or above
the threshold the NOAA-style polynomial is — but this holds for the iterative
predictor's heat index only; the DB feature builder computes a different,
single-branch exponential heat index (see the counterexample). -/
theorem heat_index_safe_two_branch (t rh : ℚ) :
    (t * 9 / 5 + 32 < 80 →
      heat_index_safe t rh =
        (0.5 * ((t * 9 / 5 + 32) + 61 + ((t * 9 / 5 + 32) - 68) * 1.2 + rh * 0.094)
          - 32) * 5 / 9) ∧
    (80 ≤ t * 9 / 5 + 32 →
      heat_index_safe t rh =
        ((-42.379 + 2.04901523 * (t * 9 / 5 + 32) + 10.14333127 * rh
          - 0.22475541 * (t * 9 / 5 + 32) * rh
          - 0.00683783 * (t * 9 / 5 + 32) * (t * 9 / 5 + 32)
          - 0.05481717 * rh * rh
          + 0.00122874 * (t * 9 / 5 + 32) * (t * 9 / 5 + 32) * rh
          + 0.00085282 * (t * 9 / 5 + 32) * rh * rh
          - 0.00000199 * (t * 9 / 5 + 32) * (t * 9 / 5 + 32) * rh * rh)
          - 32) * 5 / 9) := by
  constructor
  · intro h
    simp only [heat_index_safe]
    rw [if_pos h]
  · intro h
    simp only [heat_index_safe]
    rw [if_neg (not_lt.mpr h)]

/-- Witness for C6's amended theorem: the simple branch evaluated at 20 °C
(T = 68 °F < 80) and 50 % relative humidity. -/
theorem heat_index_safe_two_branch_witness :
    heat_index_safe 20 50 =
      (0.5 * ((20 * 9 / 5 + 32) + 61 + ((20 * 9 / 5 + 32) - 68) * 1.2 + 50 * 0.094)
        - 32) * 5 / 9 :=
  (heat_index_safe_two_branch 20 50).1 (by norm_num)

/-- C8: within any single horizon forecast result the confidence-interval margin
is non-decreasing in the horizon offset, for the route-level interval lists
(margin 175 on every hour) and for `predict_horizon`'s interval list (one shared
`1.96 * residual_std` margin). -/
theorem confidence_margin_nondecreasing :
    (∀ predictions : List ℚ,
      List.Pairwise (fun a b => a.margin ≤ b.margin)
        (route_confidence_intervals predictions)) ∧
    (∀ (horizon : ℕ) (baselineAt residualAt : ℕ → ℚ) (residual_std : ℚ),
      List.Pairwise (fun a b => a.margin ≤ b.margin)
        (predict_horizon_outputs horizon baselineAt residualAt
          residual_std).confidence_intervals) := by
  constructor
  · intro predictions
    simp only [route_confidence_intervals, List.pairwise_map]
    exact List.Pairwise.imp (fun _ => le_refl _)
      (List.pairwise_iff_forall_sublist.mpr (fun _ => trivial))
  · intro horizon baselineAt residualAt residual_std
    simp only [predict_horizon_outputs, List.pairwise_map]
    exact List.Pairwise.imp (fun _ => le_refl _)
      (List.pairwise_iff_forall_sublist.mpr (fun _ => trivial))

/-- C4 counterexample: with 10 hours of available history (strictly shorter than
24), `build_from_db_history` does not raise `InsufficientHistory` — no such
exception exists in the code — but returns the no-history fallback feature
payload, with the metadata source marked `"fallback"`.  The embedding is total
because the source catches every exception inside the method and falls back; the
claim's "it does not return a feature vector" is therefore false at this input. -/
theorem build_from_db_history_short_returns_fallback :
    build_from_db_history fbPipesC (StorageOutcome.fetched rowsTen) 0 emptyWeather
      = (fbPipesC.buildForInference 0 emptyWeather, ⟨"fallback", 10⟩) := by
  rfl

/-- C4 (amended): `build_from_db_history` never raises.  With history strictly
shorter than 24 hours it returns the fallback feature payload built without
history, with `data_source = "fallback"`; with history of length 24 to 167 it
pads the history to 168 rows and computes features from it (`"database"`); with
at least 168 rows it uses the history as is. -/
theorem build_from_db_history_degrades {α : Type} (fb : FeaturePipes α)
    (timestamp : ℤ) (weather : Weather) (rows : List DbRow) :
    (rows.length < 24 →
      build_from_db_history fb (StorageOutcome.fetched rows) timestamp weather
        = (fb.buildForInference timestamp weather, ⟨"fallback", rows.length⟩)) ∧
    (24 ≤ rows.length → rows.length < 168 →
      build_from_db_history fb (StorageOutcome.fetched rows) timestamp weather
        = (fb.computeFromHistory timestamp (pad_history rows 168) weather,
            ⟨"database", rows.length⟩)) ∧
    (168 ≤ rows.length →
      build_from_db_history fb (StorageOutcome.fetched rows) timestamp weather
        = (fb.computeFromHistory timestamp rows weather,
            ⟨"database", rows.length⟩)) := by
  refine ⟨fun h => ?_, fun h1 h2 => ?_, fun h => ?_⟩
  · simp [build_from_db_history, if_pos h]
  · simp [build_from_db_history, if_neg (not_lt.mpr h1), if_pos h2]
  · have h1 : ¬rows.length < 24 := by omega
    have h2 : ¬rows.length < 168 := by omega
    simp [build_from_db_history, if_neg h1, if_neg h2]

/-- Witness for C4's amended theorem: the graceful-degradation branch at a
30-row history, which is padded to 168 rows and served from the database path. -/
theorem build_from_db_history_degrades_witness :
    build_from_db_history fbPipesC (StorageOutcome.fetched rowsThirty) 1 emptyWeather
      = (fbPipesC.computeFromHistory 1 (pad_history rowsThirty 168) emptyWeather,
          ⟨"database", 30⟩) :=
  (build_from_db_history_degrades fbPipesC 1 emptyWeather rowsThirty).2.1
    (by decide) (by decide)

/-- C6 counterexample: at 20 °C (68 °F, strictly below the 80 °F threshold) and
50 % relative humidity the DB feature builder's heat index does not return the
simple linear approximation that `heat_index_safe` returns there — the feature
builder computes a different, single-branch exponential formula, so the
heat-index feature is not computed by the claimed two-branch formula on every
path. -/
theorem fb_heat_index_not_simple_branch :
    fb_heat_index 20 50 ≠ ((heat_index_safe 20 50 : ℚ) : ℝ) := by
  have hval : heat_index_safe 20 50 = (697 : ℚ) / 36 := by
    norm_num [heat_index_safe]
  rw [hval]
  have hcast : (((697 : ℚ) / 36 : ℚ) : ℝ) = 697 / 36 := by push_cast; ring
  rw [hcast]
  have ha : (1.35 : ℝ) ≤ 5417.7530 * (1 / 273.16 - 1 / (273.15 + 20)) := by norm_num
  have hexp : Real.exp 1.35 ≤ Real.exp (5417.7530 * (1 / 273.16 - 1 / (273.15 + 20))) :=
    Real.exp_le_exp.mpr ha
  have hsplit : Real.exp (1.35 : ℝ) = Real.exp 1 * Real.exp 0.35 := by
    rw [← Real.exp_add]; norm_num
  have h1 : (2.7182818283 : ℝ) ≤ Real.exp 1 := le_of_lt Real.exp_one_gt_d9
  have h2 : (1.35 : ℝ) ≤ Real.exp 0.35 := by
    have := Real.add_one_le_exp (0.35 : ℝ)
    linarith
  have h3 : (3.6 : ℝ) ≤ Real.exp 1.35 := by
    rw [hsplit]
    have hm := mul_le_mul h1 h2 (by norm_num : (0 : ℝ) ≤ 1.35)
      (le_trans (by norm_num : (0 : ℝ) ≤ 2.7182818283) h1)
    nlinarith
  have hE : (3.6 : ℝ) ≤ Real.exp (5417.7530 * (1 / 273.16 - 1 / (273.15 + 20))) :=
    le_trans h3 hexp
  have hgt : (697 : ℝ) / 36 < fb_heat_index 20 50 := by
    simp only [fb_heat_index]
    nlinarith [hE]
  exact ne_of_gt hgt

/-- C7 (amended): in the iterative feature builder the lag features at offsets 1,
24 and 168 hours are read from the history at exactly those offsets whenever an
entry at the offset exists; when an offset has no entry the code substitutes a
fallback value — the most recent available load for `lag_1`, the `lag_1` value
for `lag_24`, and the `lag_24` value for `lag_168` — never a zero, but also never
with any data-quality flag: the returned feature row is numbers only and records
no substitution (see the counterexample). -/
theorem lag_features_exact_or_fallback (cal : Calendar) (timestamp : ℤ)
    (history_df : List Obs) (weather : Weather) :
    (∀ o rest,
      (sortByTime history_df).filter (fun x => x.timestamp == timestamp - 1) = o :: rest →
        (build_features cal timestamp history_df weather).lag_1 = o.load) ∧
    ((sortByTime history_df).filter (fun x => x.timestamp == timestamp - 1) = [] →
      (build_features cal timestamp history_df weather).lag_1
        = lastLoad (sortByTime history_df)) ∧
    (∀ o rest,
      (sortByTime history_df).filter (fun x => x.timestamp == timestamp - 24) = o :: rest →
        (build_features cal timestamp history_df weather).lag_24 = o.load) ∧
    ((sortByTime history_df).filter (fun x => x.timestamp == timestamp - 24) = [] →
      (build_features cal timestamp history_df weather).lag_24
        = (build_features cal timestamp history_df weather).lag_1) ∧
    (∀ o rest,
      (sortByTime history_df).filter (fun x => x.timestamp == timestamp - 168) = o :: rest →
        (build_features cal timestamp history_df weather).lag_168 = o.load) ∧
    ((sortByTime history_df).filter (fun x => x.timestamp == timestamp - 168) = [] →
      (build_features cal timestamp history_df weather).lag_168
        = (build_features cal timestamp history_df weather).lag_24) := by
  refine ⟨fun o rest h => ?_, fun h => ?_, fun o rest h => ?_, fun h => ?_,
    fun o rest h => ?_, fun h => ?_⟩ <;>
    simp only [build_features] <;> rw [h]

/-- Witness for C7's amended theorem: at `histShort` and target hour 0 the
24-hour offset is absent and `lag_24` is the substituted `lag_1` value. -/
theorem lag_features_exact_or_fallback_witness :
    (build_features calC 0 histShort emptyWeather).lag_24
      = (build_features calC 0 histShort emptyWeather).lag_1 :=
  (lag_features_exact_or_fallback calC 0 histShort emptyWeather).2.2.2.1 (by decide)

/-- C7 counterexample: predicting hour 0 from `histShort` requires substituting
the missing 24- and 168-hour lags, yet the feature row returned is exactly the
one returned for `histExact`, where no offset is missing.  The result is a bare
numeric vector: no data-quality flag distinguishes the substituted computation
from the exact one, so the substitution is silent, contradicting the claim that
a flag is recorded in the result. -/
theorem lag_substitution_unflagged :
    ((sortByTime histShort).filter (fun o => o.timestamp == (0 : ℤ) - 24) = [] ∧
      (sortByTime histExact).filter (fun o => o.timestamp == (0 : ℤ) - 24) ≠ []) ∧
    build_feature_row calC 0 histExact emptyWeather featureOrderC
      = build_feature_row calC 0 histShort emptyWeather featureOrderC := by
  refine ⟨⟨by decide, by decide⟩, ?_⟩
  have hf : build_features calC 0 histExact emptyWeather
      = build_features calC 0 histShort emptyWeather := by
    norm_num +decide [build_features, histExact, histShort, calC, emptyWeather,
      sortByTime, insertByTime, lastLoad, loadMean, List.filter]
  simp only [build_feature_row, hf]

/-- One loop step emits the state's clock and advances it by one hour. -/
theorem iter_step_clock (cal : Calendar) (mods : Models) (fo : List String)
    (w : Weather) (s : IterState) :
    (iter_step cal mods fo w s).1.ts = s.ts ∧
      (iter_step cal mods fo w s).2.ts = s.ts + 1 := by
  constructor <;> (dsimp only [iter_step])

/-- One loop step's prediction carries the `max(0.0, ...)` floor. -/
theorem iter_step_pred_nonneg (cal : Calendar) (mods : Models) (fo : List String)
    (w : Weather) (s : IterState) :
    0 ≤ (iter_step cal mods fo w s).1.prediction := by
  dsimp only [iter_step]
  exact le_max_left 0 _

/-- The loop always emits exactly one output per remaining iteration. -/
theorem iter_loop_length (cal : Calendar) (mods : Models) (fo : List String)
    (wf : List Weather) :
    ∀ (n idx : ℕ) (s : IterState), (iter_loop cal mods fo wf n idx s).1.length = n := by
  intro n
  induction n with
  | zero => intro idx s; rfl
  | succ n ih =>
    intro idx s
    simp only [iter_loop, List.length_cons, ih]

/-- The loop's emitted timestamps are the state's clock advanced hour by hour. -/
theorem iter_loop_ts_map (cal : Calendar) (mods : Models) (fo : List String)
    (wf : List Weather) :
    ∀ (n idx : ℕ) (s : IterState),
      (iter_loop cal mods fo wf n idx s).1.map (fun o => o.ts)
        = (List.range n).map (fun i : ℕ => s.ts + (i : ℤ)) := by
  intro n
  induction n with
  | zero => intro idx s; rfl
  | succ n ih =>
    intro idx s
    have hstep := iter_step_clock cal mods fo (wf.getD idx emptyWeather) s
    simp only [iter_loop, List.map_cons, ih, hstep.1, hstep.2]
    rw [List.range_succ_eq_map, List.map_cons, List.map_map]
    congr 1
    · omega
    · apply List.map_congr_left
      intro i _
      simp only [Function.comp_apply]
      push_cast
      ring

/-- Every output emitted by the loop has a non-negative prediction. -/
theorem iter_loop_pred_nonneg (cal : Calendar) (mods : Models) (fo : List String)
    (wf : List Weather) :
    ∀ (n idx : ℕ) (s : IterState),
      ∀ o ∈ (iter_loop cal mods fo wf n idx s).1, 0 ≤ o.prediction := by
  intro n
  induction n with
  | zero => intro idx s o ho; simp [iter_loop] at ho
  | succ n ih =>
    intro idx s o ho
    simp only [iter_loop, List.mem_cons] at ho
    rcases ho with ho | ho
    · rw [ho]
      exact iter_step_pred_nonneg cal mods fo (wf.getD idx emptyWeather) s
    · exact ih (idx + 1) _ o ho

/-- Every prediction emitted by the CSV 24-hour loop is non-negative. -/
theorem csv24_loop_pred_nonneg (mods : Models) (fo : List String) :
    ∀ (rows : List CsvRow) (cur : List ℚ),
      ∀ p ∈ (csv24_loop mods fo rows cur).predictions, 0 ≤ p := by
  intro rows
  induction rows with
  | nil => intro cur p hp; simp [csv24_loop] at hp
  | cons row rest ih =>
    intro cur p hp
    simp only [csv24_loop, List.mem_cons] at hp
    rcases hp with hp | hp
    · rw [hp]; exact le_max_left _ _
    · exact ih _ p hp

/-- A successful `predict_24h_from_csv` run returns the prediction list of some
`csv24_loop` invocation. -/
theorem predict_24h_ok_shape (mods : Models) (fo : List String) (df_raw : List CsvRow)
    (start : ℤ) (r : Csv24Result)
    (h : predict_24h_from_csv mods fo df_raw start = Except.ok r) :
    ∃ rows cur, r.predictions = (csv24_loop mods fo rows cur).predictions := by
  simp only [predict_24h_from_csv] at h
  cases hf : (sortCsvByTime df_raw).findIdx? (fun row => row.timestamp == start) with
  | none =>
    rw [hf] at h
    exact absurd h (by simp)
  | some start_idx =>
    rw [hf] at h
    dsimp only [] at h
    by_cases h1 : start_idx < 168
    · rw [if_pos h1] at h; exact absurd h (by simp)
    · rw [if_neg h1] at h
      by_cases h2 : (sortCsvByTime df_raw).length < start_idx + 24
      · rw [if_pos h2] at h; exact absurd h (by simp)
      · rw [if_neg h2] at h
        refine ⟨(List.take 24 (List.drop start_idx (sortCsvByTime df_raw))),
          compute_residuals_from_data mods fo (sortCsvByTime df_raw)
            (start_idx - 168) start_idx, ?_⟩
        injection h with h
        rw [← h]

/-- C1: every prediction value returned by any of the three forecasting paths —
the iterative future predictor, the CSV 24-hour predictor (whenever it succeeds),
and `predict_horizon` — is non-negative: each path floors the hybrid value at
zero. -/
theorem predictions_nonneg :
    (∀ (cal : Calendar) (mods : Models) (fo : List String) (start : ℤ)
        (horizon : ℕ) (hist : List Obs) (wf : List Weather),
      ∀ p ∈ (predict_future_iterative cal mods fo start horizon hist wf).predictions,
        0 ≤ p) ∧
    (∀ (mods : Models) (fo : List String) (df : List CsvRow) (start : ℤ)
        (r : Csv24Result), predict_24h_from_csv mods fo df start = Except.ok r →
      ∀ p ∈ r.predictions, 0 ≤ p) ∧
    (∀ (horizon : ℕ) (baselineAt residualAt : ℕ → ℚ) (residual_std : ℚ),
      ∀ p ∈ (predict_horizon_outputs horizon baselineAt residualAt
          residual_std).predictions, 0 ≤ p) := by
  refine ⟨?_, ?_, ?_⟩
  · intro cal mods fo start horizon hist wf p hp
    simp only [predict_future_iterative, List.mem_map] at hp
    obtain ⟨o, ho, rfl⟩ := hp
    exact iter_loop_pred_nonneg cal mods fo wf horizon 0 _ o ho
  · intro mods fo df start r h p hp
    obtain ⟨rows, cur, hr⟩ := predict_24h_ok_shape mods fo df start r h
    rw [hr] at hp
    exact csv24_loop_pred_nonneg mods fo rows cur p hp
  · intro horizon baselineAt residualAt residual_std p hp
    simp only [predict_horizon_outputs, List.mem_map] at hp
    obtain ⟨i, _, rfl⟩ := hp
    exact le_max_left _ _

/-- Inserting an element no later than every element of a list puts it in front. -/
theorem insertCsvByTime_front (o : CsvRow) (l : List CsvRow)
    (h : ∀ x ∈ l, o.timestamp ≤ x.timestamp) : insertCsvByTime o l = o :: l := by
  cases l with
  | nil => rfl
  | cons x xs => simp only [insertCsvByTime, if_pos (h x (List.mem_cons_self x xs))]

/-- Sorting a frame already ascending in `timestamp` leaves it unchanged. -/
theorem sortCsvByTime_sorted_id :
    ∀ l : List CsvRow, List.Pairwise (fun a b => a.timestamp ≤ b.timestamp) l →
      sortCsvByTime l = l := by
  intro l
  induction l with
  | nil => intro _; rfl
  | cons x xs ih =>
    intro h
    rw [List.pairwise_cons] at h
    simp only [sortCsvByTime, ih h.2]
    exact insertCsvByTime_front x xs h.1

/-- The concrete 192-row frame is ascending in `timestamp`. -/
theorem dfW_pairwise : List.Pairwise (fun a b => a.timestamp ≤ b.timestamp) dfW := by
  unfold dfW
  rw [List.pairwise_map]
  refine (List.pairwise_lt_range 192).imp ?_
  intro a b h
  dsimp only
  exact_mod_cast le_of_lt h

set_option maxRecDepth 8000

/-- Witness for C1 at concrete inputs on all three paths: an iterative run whose
baseline is -5 MW (floored to 0), a successful CSV run over the 192-row frame,
and a one-hour `predict_horizon` with baseline -3 MW and residual +1 MW. -/
theorem predictions_nonneg_witness :
    (0 : ℚ) ≤ (predict_future_iterative calC modsPlain [] 0 1 histShort
        []).predictions.getD 0 0 ∧
    (∃ r, predict_24h_from_csv modsPlain [] dfW 168 = Except.ok r ∧
      ∀ p ∈ r.predictions, 0 ≤ p) ∧
    (0 : ℚ) ≤ (predict_horizon_outputs 1 (fun _ => -3) (fun _ => 1)
        0).predictions.getD 0 0 := by
  refine ⟨?_, ?_, ?_⟩
  · have hlen : (predict_future_iterative calC modsPlain [] 0 1 histShort
        []).predictions.length = 1 := by
      simp only [predict_future_iterative, List.length_map,
        iter_loop_length calC modsPlain [] [] 1 0]
    rw [List.getD_eq_getElem _ _ (by omega)]
    exact predictions_nonneg.1 calC modsPlain [] 0 1 histShort [] _
      (List.getElem_mem _)
  · have hsort : sortCsvByTime dfW = dfW := sortCsvByTime_sorted_id dfW dfW_pairwise
    have hfind : (sortCsvByTime dfW).findIdx? (fun r => r.timestamp == 168)
        = some 168 := by
      rw [hsort]
      simp +decide [dfW]
    have hlen : ¬(sortCsvByTime dfW).length < 168 + 24 := by
      rw [hsort]
      simp [dfW]
    have hok : ∃ r, predict_24h_from_csv modsPlain [] dfW 168 = Except.ok r := by
      simp only [predict_24h_from_csv]
      rw [hfind]
      dsimp only []
      rw [if_neg (by omega : ¬(168 : ℕ) < 168), if_neg hlen]
      exact ⟨_, rfl⟩
    obtain ⟨r, hr⟩ := hok
    exact ⟨r, hr, predictions_nonneg.2.1 modsPlain [] dfW 168 r hr⟩
  · have hlen : (predict_horizon_outputs 1 (fun _ => -3) (fun _ => 1)
        0).predictions.length = 1 := by
      simp [predict_horizon_outputs]
    rw [List.getD_eq_getElem _ _ (by omega)]
    exact predictions_nonneg.2.2 1 (fun _ => -3) (fun _ => 1) 0 _ (List.getElem_mem _)

/-- C5: for every start timestamp and horizon of at least one hour supplied with
one weather record per hour, the orchestrator returns exactly `horizon`
predictions paired with exactly the timestamps `start, start+1h, ...,
start+(horizon-1)h` — contiguous strictly increasing hourly steps — and never a
partial result with fewer entries. -/
theorem horizon_exact_and_contiguous (cal : Calendar) (mods : Models)
    (fo : List String) (start : ℤ) (horizon : ℕ) (hist : List Obs)
    (wf : List Weather) (h1 : 1 ≤ horizon) (h2 : wf.length = horizon) :
    (predict_future_iterative cal mods fo start horizon hist wf).predictions.length
        = horizon ∧
      (predict_future_iterative cal mods fo start horizon hist wf).timestamps
        = (List.range horizon).map (fun i : ℕ => start + (i : ℤ)) := by
  constructor
  · simp only [predict_future_iterative, List.length_map, iter_loop_length]
  · simp only [predict_future_iterative]
    exact iter_loop_ts_map cal mods fo wf horizon 0 _

/-- Witness for C5: a concrete two-hour run from hour 5 with two weather records
yields two predictions at hours 5 and 6. -/
theorem horizon_exact_and_contiguous_witness :
    (predict_future_iterative calC modsPlain [] 5 2 histShort
        [emptyWeather, emptyWeather]).predictions.length = 2 ∧
      (predict_future_iterative calC modsPlain [] 5 2 histShort
        [emptyWeather, emptyWeather]).timestamps
        = (List.range 2).map (fun i : ℕ => 5 + (i : ℤ)) :=
  horizon_exact_and_contiguous calC modsPlain [] 5 2 histShort
    [emptyWeather, emptyWeather] (by omega) rfl

/-- A step whose residual sequence is shorter than 168 entries emits a zero
residual and leaves the sequence untouched. -/
theorem iter_step_short_seq (cal : Calendar) (mods : Models) (fo : List String)
    (w : Weather) (s : IterState) (l : List ℚ) (hs : s.resSeq = some l)
    (hl : l.length < 168) :
    (iter_step cal mods fo w s).1.residual = 0 ∧
      (iter_step cal mods fo w s).2.resSeq = some l := by
  cases htm : mods.transformer with
  | none => constructor <;> simp [iter_step, htm, hs]
  | some tm =>
    constructor <;>
      simp [iter_step, htm, hs, show ¬168 ≤ l.length by omega]

/-- A loop started with a residual sequence shorter than 168 entries emits only
zero residuals and never updates the sequence. -/
theorem iter_loop_short_seq (cal : Calendar) (mods : Models) (fo : List String)
    (wf : List Weather) :
    ∀ (n idx : ℕ) (s : IterState) (l : List ℚ), s.resSeq = some l →
      l.length < 168 →
      (iter_loop cal mods fo wf n idx s).1.map (fun o => o.residual)
          = List.replicate n 0 ∧
        (iter_loop cal mods fo wf n idx s).2.resSeq = some l := by
  intro n
  induction n with
  | zero => intro idx s l hs _; exact ⟨rfl, hs⟩
  | succ n ih =>
    intro idx s l hs hl
    have hstep := iter_step_short_seq cal mods fo (wf.getD idx emptyWeather) s l hs hl
    have hrest := ih (idx + 1) _ l hstep.2 hl
    constructor
    · simp only [iter_loop, List.map_cons, hstep.1, hrest.1, List.replicate_succ]
    · simp only [iter_loop, hrest.2]

/-- C9: when both residual models are present, an initial scaled residual
sequence computed from history with fewer than 168 entries makes every hour of
the run a zero-residual baseline-only prediction with the sequence never
updated; and a step whose sequence holds exactly 168 entries produces the
sequence with the oldest entry dropped and the new scaled residual appended,
again of length exactly 168. -/
theorem residual_sequence_invariants :
    (∀ (cal : Calendar) (mods : Models) (fo : List String) (start : ℤ)
        (horizon : ℕ) (hist : List Obs) (wf : List Weather) (tm : List ℚ → ℚ)
        (sc : ScalerFns), mods.transformer = some tm →
      mods.residualScaler = some sc →
      (init_residual_seq cal mods fo hist sc).length < 168 →
      (predict_future_iterative cal mods fo start horizon hist wf).residuals
          = List.replicate horizon 0 ∧
        (iter_loop cal mods fo wf horizon 0
            ⟨hist, some (init_residual_seq cal mods fo hist sc), start⟩).2.resSeq
          = some (init_residual_seq cal mods fo hist sc)) ∧
    (∀ (cal : Calendar) (mods : Models) (fo : List String) (w : Weather)
        (s : IterState) (l : List ℚ) (tm : List ℚ → ℚ),
      mods.transformer = some tm → s.resSeq = some l → l.length = 168 →
      (iter_step cal mods fo w s).2.resSeq = some (l.drop 1 ++ [tm l]) ∧
        (l.drop 1 ++ [tm l]).length = 168) := by
  constructor
  · intro cal mods fo start horizon hist wf tm sc htm hsc hlen
    constructor
    · simp only [predict_future_iterative, htm, hsc]
      exact (iter_loop_short_seq cal mods fo wf horizon 0 _ _ rfl hlen).1
    · exact (iter_loop_short_seq cal mods fo wf horizon 0 _ _ rfl hlen).2
  · intro cal mods fo w s l tm htm hs hl
    constructor
    · simp [iter_step, htm, hs, hl, show (168 : ℕ) ≤ 168 by omega]
    · simp only [List.length_append, List.length_drop, hl, List.length_cons,
        List.length_nil]

/-- Witness for C9: a one-row history gives a one-entry initial residual
sequence (< 168), so a one-hour run is baseline-only; and a concrete step over a
full 168-zero sequence drops the head and appends the transformer output. -/
theorem residual_sequence_invariants_witness :
    ((predict_future_iterative calC modsFull [] 0 1 histShort []).residuals
        = List.replicate 1 0 ∧
      (iter_loop calC modsFull [] [] 1 0
          ⟨histShort, some (init_residual_seq calC modsFull [] histShort
            ⟨fun x => x, fun x => x⟩), 0⟩).2.resSeq
        = some (init_residual_seq calC modsFull [] histShort
            ⟨fun x => x, fun x => x⟩)) ∧
    ((iter_step calC modsFull [] emptyWeather
          ⟨[], some (List.replicate 168 0), 0⟩).2.resSeq
        = some ((List.replicate 168 (0 : ℚ)).drop 1 ++ [5]) ∧
      ((List.replicate 168 (0 : ℚ)).drop 1 ++ [5]).length = 168) := by
  have hlen : (init_residual_seq calC modsFull [] histShort
      ⟨fun x => x, fun x => x⟩).length < 168 := by
    simp [init_residual_seq, histShort]
  exact ⟨residual_sequence_invariants.1 calC modsFull [] 0 1 histShort []
      (fun _ => 5) ⟨fun x => x, fun x => x⟩ rfl rfl hlen,
    residual_sequence_invariants.2 calC modsFull [] emptyWeather
      ⟨[], some (List.replicate 168 0), 0⟩ (List.replicate 168 0) (fun _ => 5)
      rfl rfl (by simp)⟩

/-- Indexing with the empty-dict default is unchanged by padding the weather
list with empty dicts. -/
theorem getD_append_replicate_empty (wf : List Weather) (k i : ℕ) :
    (wf ++ List.replicate k emptyWeather).getD i emptyWeather
      = wf.getD i emptyWeather := by
  rcases Nat.lt_or_ge i wf.length with h | h
  · have hlt : i < (wf ++ List.replicate k emptyWeather).length := by
      simp only [List.length_append]
      omega
    rw [List.getD_eq_getElem _ _ hlt, List.getD_eq_getElem _ _ h,
      List.getElem_append_left h]
  · rw [List.getD_eq_default _ _ h]
    rcases Nat.lt_or_ge i (wf.length + k) with h2 | h2
    · have hlt : i < (wf ++ List.replicate k emptyWeather).length := by
        simp only [List.length_append, List.length_replicate]
        omega
      rw [List.getD_eq_getElem _ _ hlt, List.getElem_append_right h,
        List.getElem_replicate]
    · have hge : (wf ++ List.replicate k emptyWeather).length ≤ i := by
        simp only [List.length_append, List.length_replicate]
        omega
      rw [List.getD_eq_default _ _ hge]

/-- Two weather lists that agree at every index (with the empty-dict default)
drive the loop identically. -/
theorem iter_loop_weather_congr (cal : Calendar) (mods : Models) (fo : List String)
    (wf1 wf2 : List Weather)
    (h : ∀ i, wf1.getD i emptyWeather = wf2.getD i emptyWeather) :
    ∀ (n idx : ℕ) (s : IterState),
      iter_loop cal mods fo wf1 n idx s = iter_loop cal mods fo wf2 n idx s := by
  intro n
  induction n with
  | zero => intro idx s; rfl
  | succ n ih =>
    intro idx s
    simp only [iter_loop, h idx, ih]

/-- C10: the iterative predictor is total with respect to missing weather input:
with fewer weather records than the horizon it still returns exactly `horizon`
predictions, behaving exactly as if the weather list were padded with empty
records; and the features built from an empty weather record silently take the
fixed defaults — temperature 25.0, humidity 60.0, wind speed 3.5, solar
radiation 50.0, precipitation 0.0. -/
theorem iterative_total_on_missing_weather :
    (∀ (cal : Calendar) (mods : Models) (fo : List String) (start : ℤ)
        (horizon : ℕ) (hist : List Obs) (wf : List Weather),
      wf.length < horizon →
      (predict_future_iterative cal mods fo start horizon hist wf).predictions.length
          = horizon ∧
        predict_future_iterative cal mods fo start horizon hist wf
          = predict_future_iterative cal mods fo start horizon hist
              (wf ++ List.replicate (horizon - wf.length) emptyWeather)) ∧
    (∀ (cal : Calendar) (ts : ℤ) (hist : List Obs),
      (build_features cal ts hist emptyWeather).temperature_2m = 25 ∧
        (build_features cal ts hist emptyWeather).relativehumidity_2m = 60 ∧
        (build_features cal ts hist emptyWeather).wind_speed_10m = 3.5 ∧
        (build_features cal ts hist emptyWeather).shortwave_radiation = 50 ∧
        (build_features cal ts hist emptyWeather).precipitation = 0) := by
  constructor
  · intro cal mods fo start horizon hist wf _
    constructor
    · simp only [predict_future_iterative, List.length_map, iter_loop_length]
    · simp only [predict_future_iterative]
      rw [iter_loop_weather_congr cal mods fo wf
        (wf ++ List.replicate (horizon - wf.length) emptyWeather)
        (fun i => (getD_append_replicate_empty wf (horizon - wf.length) i).symm)
        horizon 0]
  · intro cal ts hist
    refine ⟨rfl, rfl, rfl, rfl, rfl⟩

/-- Witness for C10: a two-hour run with an empty weather list returns two
predictions and equals the run padded with two empty records, and the empty
record's features take the documented defaults. -/
theorem iterative_total_on_missing_weather_witness :
    ((predict_future_iterative calC modsPlain [] 0 2 histShort []).predictions.length
        = 2 ∧
      predict_future_iterative calC modsPlain [] 0 2 histShort []
        = predict_future_iterative calC modsPlain [] 0 2 histShort
            ([] ++ List.replicate (2 - List.length ([] : List Weather))
              emptyWeather)) ∧
    ((build_features calC 0 histShort emptyWeather).temperature_2m = 25 ∧
      (build_features calC 0 histShort emptyWeather).relativehumidity_2m = 60 ∧
      (build_features calC 0 histShort emptyWeather).wind_speed_10m = 3.5 ∧
      (build_features calC 0 histShort emptyWeather).shortwave_radiation = 50 ∧
      (build_features calC 0 histShort emptyWeather).precipitation = 0) :=
  ⟨iterative_total_on_missing_weather.1 calC modsPlain [] 0 2 histShort []
      (by decide),
    iterative_total_on_missing_weather.2 calC 0 histShort⟩

end Voltcast
